import Mathlib

/-!
Shallow embedding of the SSO identity-provider backend
(`src/backend/src/controllers/auth.controller.ts`,
`src/backend/src/controllers/oauth.controller.ts`, the JWT/crypto utility
module, and `src/backend/src/db/schema.ts`), together with theorems that
settle the spec claims about it.

Modelling conventions:
- Time is a single `Nat` clock in seconds.  JS `Date` comparisons
  (`new Date() > expiresAt`) are strict `>`; the `jsonwebtoken` library
  reports `TokenExpiredError` when the clock is `≥ exp`.
- Database tables are Lean lists; drizzle `select ... where eq(...) limit 1`
  is `List.find?`, `update ... where eq(...)` is a `List.map` that rewrites
  every matching row, `insert` appends.
- JWTs are modelled symbolically: `jwt.sign(payload, secret, opts)` is a
  constructor application recording the payload, the signing secret and the
  registered claims; `jwt.verify` checks the secret, expiry, issuer and
  audience fields.  A string that is not a JWT at all is `Token.garbage`.
- bcrypt is modelled as a deterministic tag function `bcryptHash`;
  `comparePassword p h` holds exactly when `h` is the hash of `p`, which is
  all the control flow of the controllers depends on.
- Express body/query parameters are `Option String`; JS falsiness of a
  missing or empty parameter is the predicate `falsy`.
- Nondeterministic inputs of the handlers (the wall clock, fresh random
  codes and token ids) are passed as explicit arguments.
-/

namespace SSO

/-- JS falsiness for an optional request parameter: `undefined` and the
empty string are falsy. -/
def falsy : Option String → Bool
  | none => true
  | some s => s == ""

/-- Model of bcrypt hashing (`bcrypt.hash` in the utility module): a
deterministic opaque tag.  Only equality of hash values matters to the
controllers. -/
def bcryptHash (p : String) : String := "bcrypt$" ++ p

/-- Model of `comparePassword` / `bcrypt.compare(password, hashed)`. -/
def comparePassword (password hashed : String) : Bool :=
  hashed == bcryptHash password

/-- Secrets loaded from the environment at startup
(`ACCESS_TOKEN_SECRET`). The concrete value is irrelevant; only
(in)equality of secrets matters. -/
def ACCESS_TOKEN_SECRET : String := "access-token-secret"

/-- Environment secret `REFRESH_TOKEN_SECRET`, distinct from the access
secret. -/
def REFRESH_TOKEN_SECRET : String := "refresh-token-secret"

/-- Source constant `ACCESS_TOKEN_EXPIRY = '1h'`, in seconds. -/
def ACCESS_TOKEN_EXPIRY_SECONDS : Nat := 3600

/-- Source constant `REFRESH_TOKEN_EXPIRY = '30d'`, in seconds. -/
def REFRESH_TOKEN_EXPIRY_SECONDS : Nat := 30 * 24 * 3600

/-- Payload of an access token (`AccessTokenPayload`). -/
structure AccessClaims where
  userId : String
  email : String
  emailVerified : Bool
deriving DecidableEq, Repr

/-- Payload of a refresh token (`RefreshTokenPayload`). -/
structure RefreshClaims where
  userId : String
  tokenId : String
deriving DecidableEq, Repr

/-- Payload of an ID token (`IdTokenPayload`). -/
structure IdClaims where
  userId : String
  email : String
  name : Option String
  emailVerified : Bool
deriving DecidableEq, Repr

/-- A token string, modelled symbolically.  The three `jwt.sign` call sites
of the utility module produce the three JWT constructors; any other string
(not produced by `jwt.sign`) is `garbage`. -/
inductive Token where
  | accessJwt (claims : AccessClaims) (iss aud secret : String) (iat exp : Nat)
  | refreshJwt (claims : RefreshClaims) (iss secret : String) (iat exp : Nat)
  | idJwt (claims : IdClaims) (iss aud secret : String) (iat exp : Nat)
  | garbage (raw : String)
deriving DecidableEq, Repr

/-- Verification failures of `jwt.verify` as surfaced by the utility
module: `TokenExpiredError` vs every other `JsonWebTokenError`. -/
inductive VerifyErr where
  | expired
  | invalid
deriving DecidableEq, Repr

/-- `generateAccessToken`: signs the payload with `ACCESS_TOKEN_SECRET`,
issuer `accounts.shelfex.com`, audience `shelfex-services`, and expiry
`'1h'` from now (the code comment claims 1 day, the constant says one
hour). -/
def generateAccessToken (payload : AccessClaims) (now : Nat) : Token :=
  .accessJwt payload "accounts.shelfex.com" "shelfex-services"
    ACCESS_TOKEN_SECRET now (now + ACCESS_TOKEN_EXPIRY_SECONDS)

/-- `generateIdToken`: same secret, issuer, audience and expiry as the
access token. -/
def generateIdToken (payload : IdClaims) (now : Nat) : Token :=
  .idJwt payload "accounts.shelfex.com" "shelfex-services"
    ACCESS_TOKEN_SECRET now (now + ACCESS_TOKEN_EXPIRY_SECONDS)

/-- `generateRefreshToken`: signed with `REFRESH_TOKEN_SECRET`, issuer
only, expiry `'30d'`. -/
def generateRefreshToken (payload : RefreshClaims) (now : Nat) : Token :=
  .refreshJwt payload "accounts.shelfex.com"
    REFRESH_TOKEN_SECRET now (now + REFRESH_TOKEN_EXPIRY_SECONDS)

/-- `verifyAccessToken`: `jwt.verify` with the access secret, checking
signature, then expiry, then issuer/audience.  Anything that is not an
access JWT signed with the right secret fails as `invalid`
(`JsonWebTokenError`); an expired one fails as `expired`. -/
def verifyAccessToken (t : Token) (now : Nat) : Except VerifyErr AccessClaims :=
  match t with
  | .accessJwt claims iss aud secret _iat exp =>
      if secret ≠ ACCESS_TOKEN_SECRET then .error .invalid
      else if exp ≤ now then .error .expired
      else if iss ≠ "accounts.shelfex.com" ∨ aud ≠ "shelfex-services" then
        .error .invalid
      else .ok claims
  | _ => .error .invalid

/-- `verifyRefreshToken`: `jwt.verify` with the refresh secret and issuer
check (no audience). -/
def verifyRefreshToken (t : Token) (now : Nat) : Except VerifyErr RefreshClaims :=
  match t with
  | .refreshJwt claims iss secret _iat exp =>
      if secret ≠ REFRESH_TOKEN_SECRET then .error .invalid
      else if exp ≤ now then .error .expired
      else if iss ≠ "accounts.shelfex.com" then .error .invalid
      else .ok claims
  | _ => .error .invalid

/-- Injective serialisation of a token, standing for the raw JWT string. -/
def Token.serialize : Token → String
  | .accessJwt c iss aud secret iat exp =>
      "a$" ++ c.userId ++ "$" ++ c.email ++ "$" ++ toString c.emailVerified
        ++ "$" ++ iss ++ "$" ++ aud ++ "$" ++ secret ++ "$" ++ toString iat
        ++ "$" ++ toString exp
  | .refreshJwt c iss secret iat exp =>
      "r$" ++ c.userId ++ "$" ++ c.tokenId ++ "$" ++ iss ++ "$" ++ secret
        ++ "$" ++ toString iat ++ "$" ++ toString exp
  | .idJwt c iss aud secret iat exp =>
      "i$" ++ c.userId ++ "$" ++ c.email ++ "$" ++ toString (c.name.getD "")
        ++ "$" ++ toString c.emailVerified ++ "$" ++ iss ++ "$" ++ aud
        ++ "$" ++ secret ++ "$" ++ toString iat ++ "$" ++ toString exp
  | .garbage raw => "g$" ++ raw

/-- `hashToken`: SHA-256 hex digest of the raw token string, modelled as a
deterministic opaque tag of the serialised token. -/
def hashToken (t : Token) : String := "sha256$" ++ t.serialize

/-- `getRefreshTokenExpiry`: 30 days from now. -/
def getRefreshTokenExpiry (now : Nat) : Nat := now + REFRESH_TOKEN_EXPIRY_SECONDS

/-- `getAuthCodeExpiry`: 10 minutes from now. -/
def getAuthCodeExpiry (now : Nat) : Nat := now + 600

/-- Row of the `users` table (schema.ts). -/
structure UserRec where
  id : String
  email : String
  username : Option String
  password : String
  name : Option String
  emailVerified : Bool
deriving DecidableEq, Repr

/-- Row of the `refresh_tokens` table (schema.ts). -/
structure RefreshRec where
  userId : String
  tokenHash : String
  expiresAt : Nat
  isRevoked : Bool
  lastUsedAt : Option Nat
deriving DecidableEq, Repr

/-- Row of the `auth_codes` table (schema.ts). -/
structure AuthCodeRec where
  code : String
  userId : String
  clientId : String
  redirectUri : String
  expiresAt : Nat
  isUsed : Bool
deriving DecidableEq, Repr

/-- Row of the `client_apps` table (schema.ts). `clientSecret` stores a
bcrypt hash. -/
structure ClientRec where
  clientId : String
  clientSecret : String
  name : String
  allowedRedirectUris : List String
deriving DecidableEq, Repr

/-- The persistent store: the four tables of schema.ts. -/
structure DB where
  users : List UserRec
  refreshTokens : List RefreshRec
  authCodes : List AuthCodeRec
  clientApps : List ClientRec
deriving DecidableEq, Repr

/-- Body of `POST /oauth/token`. -/
structure TokenRequest where
  code : Option String
  client_id : Option String
  client_secret : Option String
  redirect_uri : Option String
  grant_type : Option String
deriving DecidableEq, Repr

/-- Response of `POST /oauth/token`: either a JSON error
`{status, message, error}` or the 200 token payload. -/
inductive TokenResult where
  | err (status : Nat) (message : String) (errTag : String)
  | ok (access_token refresh_token id_token : Token)
      (token_type : String) (expires_in : Nat)
deriving DecidableEq, Repr

/-- `db.select().from(clientApps).where(eq(clientApps.clientId, v)).limit(1)`. -/
def findClient (db : DB) (v : Option String) : Option ClientRec :=
  db.clientApps.find? (fun c => some c.clientId == v)

/-- `db.select().from(authCodes).where(and(eq(code, v), eq(clientId, cid))).limit(1)`. -/
def findAuthCode (db : DB) (v cid : Option String) : Option AuthCodeRec :=
  db.authCodes.find? (fun a => some a.code == v && some a.clientId == cid)

/-- `db.select().from(users).where(eq(users.id, uid)).limit(1)`. -/
def findUserById (db : DB) (uid : String) : Option UserRec :=
  db.users.find? (fun u => u.id == uid)

/-- The validation predicate at the top of the `token` handler:
`!code || !client_id || !client_secret || !redirect_uri ||
grant_type !== 'authorization_code'`. -/
def tokenRequestInvalid (req : TokenRequest) : Bool :=
  falsy req.code || falsy req.client_id || falsy req.client_secret ||
    falsy req.redirect_uri || req.grant_type != some "authorization_code"

/-- The handler of `POST /oauth/token` (oauth.controller.ts `token`),
as a pure function of the store, the request body, the clock, and the
freshly generated refresh-token id. -/
def token (db : DB) (req : TokenRequest) (now : Nat) (tokenId : String) :
    TokenResult × DB :=
  if tokenRequestInvalid req then
    (.err 400 "Invalid token request"
      "Required: code, client_id, client_secret, redirect_uri, grant_type=authorization_code",
     db)
  else
    match findClient db req.client_id with
    | none => (.err 401 "Invalid client credentials" "Client not found", db)
    | some client =>
      if !comparePassword (req.client_secret.getD "") client.clientSecret then
        (.err 401 "Invalid client credentials" "Client secret is incorrect", db)
      else
        match findAuthCode db req.code req.client_id with
        | none =>
            (.err 400 "Invalid authorization code"
              "Code not found or does not belong to this client", db)
        | some authCode =>
          if authCode.isUsed then
            (.err 400 "Authorization code already used"
              "This code has been exchanged already", db)
          else if authCode.expiresAt < now then
            (.err 400 "Authorization code expired" "Code is no longer valid", db)
          else if some authCode.redirectUri != req.redirect_uri then
            (.err 400 "Invalid redirect_uri"
              "Redirect URI does not match the one used in authorization", db)
          else
            match findUserById db authCode.userId with
            | none =>
                (.err 400 "User not found" "Associated user no longer exists", db)
            | some user =>
              let db1 : DB :=
                { db with authCodes :=
                    db.authCodes.map (fun a =>
                      if some a.code == req.code then { a with isUsed := true } else a) }
              let accessToken := generateAccessToken
                ⟨user.id, user.email, user.emailVerified⟩ now
              let refreshToken := generateRefreshToken ⟨user.id, tokenId⟩ now
              let idToken := generateIdToken
                ⟨user.id, user.email, user.name, user.emailVerified⟩ now
              let tokenHash := hashToken refreshToken
              let db2 : DB :=
                { db1 with refreshTokens :=
                    db1.refreshTokens ++
                      [⟨user.id, tokenHash, getRefreshTokenExpiry now, false, none⟩] }
              (.ok accessToken refreshToken idToken "Bearer" 86400, db2)

/-- Query of `GET /oauth/authorize`. -/
structure AuthorizeRequest where
  client_id : Option String
  redirect_uri : Option String
  response_type : Option String
  state : Option String
deriving DecidableEq, Repr

/-- Response of `GET /oauth/authorize`: JSON error, redirect to the login
page (preserving the OAuth parameters), or redirect to the client's
`redirect_uri` with the fresh code. -/
inductive AuthorizeResult where
  | errJson (status : Nat) (message : String) (errTag : String)
  | redirectLogin (client_id redirect_uri : String) (state : Option String)
  | redirectCode (redirect_uri code : String) (state : Option String)
deriving DecidableEq, Repr

/-- The validation predicate at the top of the `authorize` handler:
`!client_id || !redirect_uri || response_type !== 'code'`. -/
def authorizeRequestInvalid (req : AuthorizeRequest) : Bool :=
  falsy req.client_id || falsy req.redirect_uri ||
    req.response_type != some "code"

/-- The handler of `GET /oauth/authorize` (oauth.controller.ts
`authorize`).  `cookie` is the `accounts_session` cookie (absent or a
token string); `emailVerificationRequired` is the
`EMAIL_VERIFICATION_REQUIRED` environment flag; `freshCode` is the output
of `generateAuthCode()`. -/
def authorize (db : DB) (req : AuthorizeRequest) (cookie : Option Token)
    (emailVerificationRequired : Bool) (now : Nat) (freshCode : String) :
    AuthorizeResult × DB :=
  if authorizeRequestInvalid req then
    (.errJson 400 "Invalid OAuth request"
      "Required params: client_id, redirect_uri, response_type=code", db)
  else
    match findClient db req.client_id with
    | none => (.errJson 400 "Invalid client_id" "Client not registered", db)
    | some client =>
      if !client.allowedRedirectUris.contains (req.redirect_uri.getD "") then
        (.errJson 400 "Invalid redirect_uri"
          "Redirect URI not registered for this client", db)
      else
        match cookie with
        | none =>
            (.redirectLogin (req.client_id.getD "") (req.redirect_uri.getD "")
              req.state, db)
        | some tok =>
          match verifyAccessToken tok now with
          | .error _ =>
              (.redirectLogin (req.client_id.getD "") (req.redirect_uri.getD "")
                req.state, db)
          | .ok decoded =>
            if emailVerificationRequired && !decoded.emailVerified then
              (.errJson 403 "Email verification required"
                "Please verify your email before accessing other apps", db)
            else
              let db1 : DB :=
                { db with authCodes :=
                    db.authCodes ++
                      [⟨freshCode, decoded.userId, req.client_id.getD "",
                        req.redirect_uri.getD "", getAuthCodeExpiry now, false⟩] }
              (.redirectCode (req.redirect_uri.getD "") freshCode req.state, db1)

/-- Body of `POST /auth/register`. -/
structure RegisterRequest where
  email : Option String
  username : Option String
  password : Option String
  name : Option String
deriving DecidableEq, Repr

/-- Response of `POST /auth/register`. -/
inductive RegisterResult where
  | err (status : Nat) (message : String)
  | created (id email : String) (username name : Option String)
      (emailVerified : Bool)
deriving DecidableEq, Repr

/-- The handler of `POST /auth/register` (auth.controller.ts `register`).
`newId` is the row id the database generates for the inserted user.  The
source also runs an unconditional `username` lookup right after the email
lookup whose result is shadowed and unused; it has no observable effect
and is omitted. -/
def register (db : DB) (req : RegisterRequest) (newId : String) :
    RegisterResult × DB :=
  if falsy req.email || falsy req.password then
    (.err 400 "Email and password are required", db)
  else
    let existingEmail := db.users.filter (fun u => some u.email == req.email)
    if existingEmail.length > 0 then
      (.err 409 "User with this email already exists", db)
    else if !falsy req.username &&
        (db.users.filter (fun u => u.username == req.username)).length > 0 then
      (.err 409 "Username already taken", db)
    else
      let newUser : UserRec :=
        { id := newId
          email := req.email.getD ""
          username := if falsy req.username then none else req.username
          password := bcryptHash (req.password.getD "")
          name := if falsy req.name then none else req.name
          emailVerified := false }
      (.created newUser.id newUser.email newUser.username newUser.name
        newUser.emailVerified,
       { db with users := db.users ++ [newUser] })

/-- Body of `POST /auth/login`. -/
structure LoginRequest where
  identifier : Option String
  password : Option String
  client_id : Option String
  redirect_uri : Option String
  state : Option String
deriving DecidableEq, Repr

/-- Response of `POST /auth/login`: JSON error, 302 to `/oauth/authorize`
(OAuth flow), or the 200 body with the user view and both raw tokens. -/
inductive LoginResult where
  | err (status : Nat) (message : String)
  | redirectAuthorize (client_id redirect_uri : String) (state : Option String)
  | ok (userId email : String) (name : Option String) (emailVerified : Bool)
      (accessToken refreshToken : Token)
deriving DecidableEq, Repr

/-- `identifier.includes('@')`: does the identifier contain an `@`?
(Stated over the character list so it evaluates by `decide`.) -/
def includesAt (ident : String) : Bool := ident.data.contains '@'

/-- The user lookup of the login handler: identifier containing `@` is
looked up as an email, otherwise as a username. -/
def findUserByIdentifier (db : DB) (ident : String) : Option UserRec :=
  db.users.find? (fun u =>
    if includesAt ident then u.email == ident else u.username == some ident)

/-- The handler of `POST /auth/login` (auth.controller.ts `login`).
`tokenId` is the output of `generateTokenId()`. -/
def login (db : DB) (req : LoginRequest) (now : Nat) (tokenId : String) :
    LoginResult × DB :=
  if falsy req.identifier || falsy req.password then
    (.err 400 "Email/username and password are required", db)
  else
    match findUserByIdentifier db (req.identifier.getD "") with
    | none => (.err 401 "Invalid credentials", db)
    | some user =>
      if !comparePassword (req.password.getD "") user.password then
        (.err 401 "Invalid credentials", db)
      else
        let accessToken := generateAccessToken
          ⟨user.id, user.email, user.emailVerified⟩ now
        let refreshToken := generateRefreshToken ⟨user.id, tokenId⟩ now
        let tokenHash := hashToken refreshToken
        let db1 : DB :=
          { db with refreshTokens :=
              db.refreshTokens ++
                [⟨user.id, tokenHash, getRefreshTokenExpiry now, false, none⟩] }
        if !falsy req.client_id && !falsy req.redirect_uri then
          (.redirectAuthorize (req.client_id.getD "") (req.redirect_uri.getD "")
            req.state, db1)
        else
          (.ok user.id user.email user.name user.emailVerified
            accessToken refreshToken, db1)

/-- Response of `POST /auth/refresh`. -/
inductive RefreshResult where
  | err (status : Nat) (message : String)
  | ok (accessToken : Token)
deriving DecidableEq, Repr

/-- Modelled from the spec: the repository's `error.middleware` (referenced
from app.ts but not present under src/) renders the token-verification
errors thrown by `verifyRefreshToken` as 401 JSON envelopes, as the spec's
error taxonomy (InvalidToken 401: malformed, bad signature, expired) and
the README's documented `POST /auth/refresh` 401 responses prescribe. -/
def renderRefreshVerifyError : VerifyErr → RefreshResult
  | .expired => .err 401 "Refresh token expired"
  | .invalid => .err 401 "Invalid refresh token"

/-- `db.select().from(refreshTokens).where(eq(refreshTokens.tokenHash, h)).limit(1)`. -/
def findRefreshByHash (db : DB) (h : String) : Option RefreshRec :=
  db.refreshTokens.find? (fun r => r.tokenHash == h)

/-- The handler of `POST /auth/refresh` (auth.controller.ts `refresh`).
`cookieTok` is the `refresh_token` cookie, `bodyTok` the `refreshToken`
body field; the source takes `cookie || body`. -/
def refresh (db : DB) (cookieTok bodyTok : Option Token) (now : Nat) :
    RefreshResult × DB :=
  match cookieTok.orElse (fun _ => bodyTok) with
  | none => (.err 401 "Refresh token required", db)
  | some tok =>
    match verifyRefreshToken tok now with
    | .error e => (renderRefreshVerifyError e, db)
    | .ok decoded =>
      let tokenHash := hashToken tok
      match findRefreshByHash db tokenHash with
      | none => (.err 401 "Invalid refresh token", db)
      | some stored =>
        if stored.isRevoked then
          (.err 401 "Refresh token has been revoked", db)
        else if stored.expiresAt < now then
          (.err 401 "Refresh token expired", db)
        else
          match findUserById db decoded.userId with
          | none => (.err 401 "User not found", db)
          | some user =>
            let newAccessToken := generateAccessToken
              ⟨user.id, user.email, user.emailVerified⟩ now
            let db1 : DB :=
              { db with refreshTokens :=
                  db.refreshTokens.map (fun r =>
                    if r.tokenHash == tokenHash then
                      { r with lastUsedAt := some now } else r) }
            (.ok newAccessToken, db1)

/-!
Concurrency model for the `/token` handler.  In the source every database
round-trip is an `await`, so a second concurrent request may interleave
between them.  The handler splits into a read phase (all validations, no
writes: the client lookup, the secret check, the code lookup with its
used/expiry/redirect checks, and the user lookup) and a write phase (the
`UPDATE auth_codes SET is_used = true WHERE code = ?` — note: NOT
conditional on `is_used = false` — followed by token generation and the
`refresh_tokens` insert).  `token_eq_phases` proves the decomposition is
the very same code.
-/

/-- The read phase of the `/token` handler: every validation step up to
and including the user lookup, performing no writes.  On success it yields
the loaded user row, the only datum the write phase consumes. -/
def tokenReadPhase (db : DB) (req : TokenRequest) (now : Nat) :
    Except TokenResult UserRec :=
  if tokenRequestInvalid req then
    .error (.err 400 "Invalid token request"
      "Required: code, client_id, client_secret, redirect_uri, grant_type=authorization_code")
  else
    match findClient db req.client_id with
    | none => .error (.err 401 "Invalid client credentials" "Client not found")
    | some client =>
      if !comparePassword (req.client_secret.getD "") client.clientSecret then
        .error (.err 401 "Invalid client credentials" "Client secret is incorrect")
      else
        match findAuthCode db req.code req.client_id with
        | none =>
            .error (.err 400 "Invalid authorization code"
              "Code not found or does not belong to this client")
        | some authCode =>
          if authCode.isUsed then
            .error (.err 400 "Authorization code already used"
              "This code has been exchanged already")
          else if authCode.expiresAt < now then
            .error (.err 400 "Authorization code expired" "Code is no longer valid")
          else if some authCode.redirectUri != req.redirect_uri then
            .error (.err 400 "Invalid redirect_uri"
              "Redirect URI does not match the one used in authorization")
          else
            match findUserById db authCode.userId with
            | none =>
                .error (.err 400 "User not found" "Associated user no longer exists")
            | some user => .ok user

/-- The write phase of the `/token` handler: the unconditional mark-used
update, token generation, and the refresh-record insert. -/
def tokenWritePhase (db : DB) (req : TokenRequest) (user : UserRec)
    (now : Nat) (tokenId : String) : TokenResult × DB :=
  let db1 : DB :=
    { db with authCodes :=
        db.authCodes.map (fun a =>
          if some a.code == req.code then { a with isUsed := true } else a) }
  let accessToken := generateAccessToken ⟨user.id, user.email, user.emailVerified⟩ now
  let refreshToken := generateRefreshToken ⟨user.id, tokenId⟩ now
  let idToken := generateIdToken ⟨user.id, user.email, user.name, user.emailVerified⟩ now
  let tokenHash := hashToken refreshToken
  let db2 : DB :=
    { db1 with refreshTokens :=
        db1.refreshTokens ++
          [⟨user.id, tokenHash, getRefreshTokenExpiry now, false, none⟩] }
  (.ok accessToken refreshToken idToken "Bearer" 86400, db2)

/-- One interleaving of two concurrent `/token` requests with the same
body: request A runs its read phase, then request B runs its read phase
(both against the initial store, as the awaits allow), then A commits its
write phase, then B commits its write phase on top.  Returns A's response,
B's response, and the final store. -/
def tokenInterleaved (db : DB) (req : TokenRequest) (now : Nat)
    (tokenId1 tokenId2 : String) : TokenResult × TokenResult × DB :=
  match tokenReadPhase db req now, tokenReadPhase db req now with
  | .error r1, .error r2 => (r1, r2, db)
  | .error r1, .ok u2 =>
      let (r2, db2) := tokenWritePhase db req u2 now tokenId2
      (r1, r2, db2)
  | .ok u1, .error r2 =>
      let (r1, db1) := tokenWritePhase db req u1 now tokenId1
      (r1, r2, db1)
  | .ok u1, .ok u2 =>
      let (r1, db1) := tokenWritePhase db req u1 now tokenId1
      let (r2, db2) := tokenWritePhase db1 req u2 now tokenId2
      (r1, r2, db2)

/-- Discriminator: is a `/token` response the 200 token payload? -/
def TokenResult.isOk : TokenResult → Bool
  | .ok _ _ _ _ _ => true
  | .err _ _ _ => false

/-!
Concrete fixtures used by witness and counterexample theorems, mirroring
the spec's end-to-end scenario values (§8).
-/

/-- Fixture user `alice@x.test` with password `pw123`. -/
def exUser : UserRec :=
  ⟨"user-1", "alice@x.test", some "alice", bcryptHash "pw123", some "Alice", true⟩

/-- Fixture client `appA` with secret `s` and two registered redirect
URIs. -/
def exClient : ClientRec :=
  ⟨"appA", bcryptHash "s", "App A", ["https://a.test/cb", "https://b.test/cb"]⟩

/-- Fixture fresh authorization code bound to `https://a.test/cb`, expiring
at time 2000. -/
def exCode : AuthCodeRec :=
  ⟨"code-1", "user-1", "appA", "https://a.test/cb", 2000, false⟩

/-- Fixture store with the user, the fresh code and the client. -/
def exDB : DB := ⟨[exUser], [], [exCode], [exClient]⟩

/-- Fixture store whose only code has already been used. -/
def exDBUsed : DB := ⟨[exUser], [], [{ exCode with isUsed := true }], [exClient]⟩

/-- A well-formed `/token` request matching the fixture code. -/
def exTokenReq : TokenRequest :=
  ⟨some "code-1", some "appA", some "s", some "https://a.test/cb",
   some "authorization_code"⟩

/-- Fixture raw refresh token issued to the fixture user at time 500. -/
def exRefreshTok : Token := generateRefreshToken ⟨"user-1", "tid-0"⟩ 500

/-- Fixture refresh record for `exRefreshTok`. -/
def exRefreshRec : RefreshRec :=
  ⟨"user-1", hashToken exRefreshTok, getRefreshTokenExpiry 500, false, none⟩

/-- Fixture store holding the refresh record for `exRefreshTok`. -/
def exDBR : DB := ⟨[exUser], [exRefreshRec], [], [exClient]⟩

/-- `exDBR` after a successful refresh at time 1000: the single refresh
record with `lastUsedAt` set, everything else unchanged. -/
def exDBRafter : DB :=
  ⟨[exUser], [{ exRefreshRec with lastUsedAt := some 1000 }], [], [exClient]⟩

/-- Fixture store for the deleted-user scenario: the client is registered
but no user exists at all. -/
def exDBGhost : DB := ⟨[], [], [], [exClient]⟩

/-- `exDBGhost` after `/authorize` issued code `fc1` for the vanished user
`ghost` at time 1000. -/
def exDBGhostAfter : DB :=
  ⟨[], [],
   [⟨"fc1", "ghost", "appA", "https://a.test/cb", getAuthCodeExpiry 1000, false⟩],
   [exClient]⟩

/-!
Theorems.
-/

/-- The sequential handler is exactly the read phase followed by the write
phase. -/
theorem token_eq_phases (db : DB) (req : TokenRequest) (now : Nat) (tokenId : String) :
    token db req now tokenId =
      match tokenReadPhase db req now with
      | .error r => (r, db)
      | .ok user => tokenWritePhase db req user now tokenId := by
  unfold token tokenReadPhase tokenWritePhase
  repeat' split <;> try rfl

/-- Helper: `find?` commutes with a `map` whose function preserves the
predicate. -/
theorem find_map_pres {α : Type} (p : α → Bool) (f : α → α)
    (hf : ∀ a, p (f a) = p a) (l : List α) :
    (l.map f).find? p = (l.find? p).map f := by
  rw [List.find?_map]
  have h : (p ∘ f) = p := funext hf
  rw [h]

/-- C1: for every AuthCode record whose used flag is true, a `/token`
exchange presenting that code with otherwise valid grant type, client
credentials and redirect URI — and regardless of expiry — fails with the
InvalidGrant "already used" error, issues no tokens, and leaves the store
unchanged (in particular no RefreshRecord is inserted), so each code
admits at most one successful exchange. -/
theorem used_code_exchange_always_fails (db : DB) (req : TokenRequest)
    (now : Nat) (tokenId : String) (client : ClientRec) (ac : AuthCodeRec)
    (hreq : tokenRequestInvalid req = false)
    (hclient : findClient db req.client_id = some client)
    (hsecret : comparePassword (req.client_secret.getD "") client.clientSecret = true)
    (hcode : findAuthCode db req.code req.client_id = some ac)
    (hused : ac.isUsed = true) :
    token db req now tokenId =
      (.err 400 "Authorization code already used"
        "This code has been exchanged already", db) := by
  simp [token, hreq, hclient, hsecret, hcode, hused]

/-- Witness for the used-code theorem: the fixture store whose only code is
already used, at a request that is valid in every other respect. -/
theorem used_code_exchange_always_fails_witness :
    token exDBUsed exTokenReq 1000 "tid-1" =
      (.err 400 "Authorization code already used"
        "This code has been exchanged already", exDBUsed) :=
  used_code_exchange_always_fails exDBUsed exTokenReq 1000 "tid-1"
    exClient { exCode with isUsed := true }
    (by decide) (by decide) (by decide) (by decide) (by decide)

/-- C2 counterexample: the mark-used update of the `/token` handler is an
unconditional `UPDATE ... SET is_used = true WHERE code = ?` that does not
report whether it flipped the bit, so under the interleaving in which both
concurrent `/token` calls complete their read phase before either commits
its write phase, BOTH calls return 200 with tokens — refuting the claim
that exactly one of any two concurrent calls succeeds. -/
theorem concurrent_exchange_both_succeed :
    (tokenInterleaved exDB exTokenReq 1000 "tid-1" "tid-2").1.isOk = true ∧
    (tokenInterleaved exDB exTokenReq 1000 "tid-1" "tid-2").2.1.isOk = true := by
  decide

/-- C2 amended: exclusivity of the Fresh→Used transition holds only for
non-overlapping executions.  A valid exchange succeeds and marks the code
used, and any later `/token` call that runs against the resulting store
fails with InvalidGrant "already used" and changes nothing. -/
theorem sequential_second_exchange_fails (db : DB) (req : TokenRequest)
    (now now2 : Nat) (tokenId tokenId2 : String)
    (client : ClientRec) (ac : AuthCodeRec) (user : UserRec)
    (hreq : tokenRequestInvalid req = false)
    (hclient : findClient db req.client_id = some client)
    (hsecret : comparePassword (req.client_secret.getD "") client.clientSecret = true)
    (hcode : findAuthCode db req.code req.client_id = some ac)
    (hused : ac.isUsed = false)
    (hexp : ¬ ac.expiresAt < now)
    (hred : (some ac.redirectUri != req.redirect_uri) = false)
    (huser : findUserById db ac.userId = some user) :
    (token db req now tokenId).1.isOk = true ∧
    token (token db req now tokenId).2 req now2 tokenId2 =
      (.err 400 "Authorization code already used"
        "This code has been exchanged already",
       (token db req now tokenId).2) := by
  have hrp : tokenReadPhase db req now = .ok user := by
    simp [tokenReadPhase, hreq, hclient, hsecret, hcode, hused, hexp, hred, huser]
  have htok : token db req now tokenId = tokenWritePhase db req user now tokenId := by
    rw [token_eq_phases, hrp]
  rw [htok]
  refine ⟨rfl, ?_⟩
  have hc2 : findClient (tokenWritePhase db req user now tokenId).2 req.client_id
      = some client := hclient
  have h' : db.authCodes.find?
      (fun a => some a.code == req.code && some a.clientId == req.client_id)
      = some ac := hcode
  have hps := List.find?_some h'
  have hac2 : findAuthCode (tokenWritePhase db req user now tokenId).2
      req.code req.client_id = some { ac with isUsed := true } := by
    show (db.authCodes.map (fun a =>
        if some a.code == req.code then { a with isUsed := true } else a)).find?
        (fun a => some a.code == req.code && some a.clientId == req.client_id)
      = some { ac with isUsed := true }
    rw [find_map_pres _ _ (by
      intro a
      by_cases hx : some a.code == req.code <;> simp [hx])]
    rw [show db.authCodes.find?
        (fun a => some a.code == req.code && some a.clientId == req.client_id)
        = some ac from hcode]
    have hx := (Bool.and_eq_true _ _).mp hps
    simp only [Option.map_some']
    congr 1
    rw [if_pos hx.1]
  simp [token, hreq, hc2, hsecret, hac2]

/-- Witness for the amended C2 theorem at the fixture store. -/
theorem sequential_second_exchange_fails_witness :
    (token exDB exTokenReq 1000 "tid-1").1.isOk = true ∧
    token (token exDB exTokenReq 1000 "tid-1").2 exTokenReq 1500 "tid-2" =
      (.err 400 "Authorization code already used"
        "This code has been exchanged already",
       (token exDB exTokenReq 1000 "tid-1").2) :=
  sequential_second_exchange_fails exDB exTokenReq 1000 1500 "tid-1" "tid-2"
    exClient exCode exUser
    (by decide) (by decide) (by decide) (by decide) (by decide)
    (by decide) (by decide) (by decide)

/-- C3: the claim says the access token verifies until `t + 86400` (the
`expires_in` value `/token` reports), but `generateAccessToken` signs with
`ACCESS_TOKEN_EXPIRY = '1h'`: a token signed at `t = 0` already yields the
expired error at `now = 7200`, two hours later and far inside the
documented one-day window, while the `/token` response still advertises
`expires_in = 86400`.  The code contradicts its own comment ("short-lived
access token (1 day)"), its README, and the `expires_in` it returns. -/
theorem access_token_expires_after_one_hour_not_one_day :
    generateAccessToken ⟨"user-1", "alice@x.test", true⟩ 0 =
      .accessJwt ⟨"user-1", "alice@x.test", true⟩ "accounts.shelfex.com"
        "shelfex-services" ACCESS_TOKEN_SECRET 0 3600 ∧
    verifyAccessToken (generateAccessToken ⟨"user-1", "alice@x.test", true⟩ 0) 7200
      = .error .expired ∧
    (token exDB exTokenReq 1000 "tid-1").1 =
      .ok (generateAccessToken ⟨"user-1", "alice@x.test", true⟩ 1000)
        (generateRefreshToken ⟨"user-1", "tid-1"⟩ 1000)
        (generateIdToken ⟨"user-1", "alice@x.test", some "Alice", true⟩ 1000)
        "Bearer" 86400 ∧
    7200 < 86400 := by
  refine ⟨rfl, rfl, by decide, by decide⟩

/-- C4: a `/token` exchange whose `redirect_uri` is not byte-equal to the
one the code was bound to fails with the InvalidGrant "redirect mismatch"
error and leaves the store unchanged; the client's whitelist is never
consulted at this step, so this holds even when the supplied URI is
whitelisted. -/
theorem exchange_redirect_mismatch_fails (db : DB) (req : TokenRequest)
    (now : Nat) (tokenId : String) (client : ClientRec) (ac : AuthCodeRec)
    (hreq : tokenRequestInvalid req = false)
    (hclient : findClient db req.client_id = some client)
    (hsecret : comparePassword (req.client_secret.getD "") client.clientSecret = true)
    (hcode : findAuthCode db req.code req.client_id = some ac)
    (hused : ac.isUsed = false)
    (hexp : ¬ ac.expiresAt < now)
    (hred : (some ac.redirectUri != req.redirect_uri) = true) :
    token db req now tokenId =
      (.err 400 "Invalid redirect_uri"
        "Redirect URI does not match the one used in authorization", db) := by
  simp [token, hreq, hclient, hsecret, hcode, hused, hexp]
  simp_all

/-- Witness for the redirect-mismatch theorem: the fixture code is bound to
`https://a.test/cb`, and the exchange supplies `https://b.test/cb`, a URI
that IS in the client's whitelist. -/
theorem exchange_redirect_mismatch_fails_witness :
    token exDB
      ⟨some "code-1", some "appA", some "s", some "https://b.test/cb",
       some "authorization_code"⟩ 1000 "tid-1" =
      (.err 400 "Invalid redirect_uri"
        "Redirect URI does not match the one used in authorization", exDB) :=
  exchange_redirect_mismatch_fails exDB
    ⟨some "code-1", some "appA", some "s", some "https://b.test/cb",
     some "authorization_code"⟩ 1000 "tid-1" exClient exCode
    (by decide) (by decide) (by decide) (by decide) (by decide)
    (by decide) (by decide)

/-- C5: whenever `/authorize` fails one of its three pre-checks — a missing
parameter or wrong `response_type`, an unknown `client_id`, or a
`redirect_uri` not byte-exactly contained in the client's whitelist — the
response is a 400 JSON error body (never one of the redirect responses)
and the store is unchanged, so no AuthCode is inserted and the user agent
is never sent to the unvalidated redirect URI. -/
theorem authorize_precheck_failure_is_json_error (db : DB)
    (req : AuthorizeRequest) (cookie : Option Token)
    (emailVerificationRequired : Bool) (now : Nat) (freshCode : String)
    (h : authorizeRequestInvalid req = true ∨
      findClient db req.client_id = none ∨
      ∃ client, findClient db req.client_id = some client ∧
        client.allowedRedirectUris.contains (req.redirect_uri.getD "") = false) :
    ∃ m e, authorize db req cookie emailVerificationRequired now freshCode =
      (.errJson 400 m e, db) := by
  by_cases hv : authorizeRequestInvalid req = true
  · exact ⟨"Invalid OAuth request",
      "Required params: client_id, redirect_uri, response_type=code",
      by simp [authorize, hv]⟩
  · rcases h with h | h | ⟨client, hc, hcont⟩
    · exact absurd h hv
    · exact ⟨"Invalid client_id", "Client not registered",
        by simp [authorize, hv, h]⟩
    · have hcont' : ¬ (req.redirect_uri.getD "" ∈ client.allowedRedirectUris) := by
        simpa using hcont
      exact ⟨"Invalid redirect_uri", "Redirect URI not registered for this client",
        by simp [authorize, hv, hc, hcont']⟩

/-- Witness for the `/authorize` pre-check theorem: a redirect URI outside
the fixture client's whitelist. -/
theorem authorize_precheck_failure_is_json_error_witness :
    ∃ m e, authorize exDB
      ⟨some "appA", some "https://attacker.test/cb", some "code", some "st"⟩
      none false 1000 "fc1" =
      (.errJson 400 m e, exDB) :=
  authorize_precheck_failure_is_json_error exDB
    ⟨some "appA", some "https://attacker.test/cb", some "code", some "st"⟩
    none false 1000 "fc1"
    (Or.inr (Or.inr ⟨exClient, by decide, by decide⟩))

/-- C6: whenever the refresh token presented to `/auth/refresh` (from the
cookie or the body) fails signature-and-expiry verification — a malformed
token, a bad signature, or an expired JWT — the call fails with a 401
response and the store is completely unchanged: no RefreshRecord field is
modified and no token is issued.  (The rendering of the thrown
verification error as a 401 envelope is the spec-modelled error
middleware, `renderRefreshVerifyError`.) -/
theorem refresh_verify_failure_is_401_no_state_change (db : DB)
    (cookieTok bodyTok : Option Token) (tok : Token) (now : Nat) (e : VerifyErr)
    (hsel : cookieTok.orElse (fun _ => bodyTok) = some tok)
    (hv : verifyRefreshToken tok now = .error e) :
    ∃ m, refresh db cookieTok bodyTok now = (.err 401 m, db) := by
  simp only [refresh, hsel, hv]
  cases e <;> exact ⟨_, rfl⟩

/-- Witness for the refresh-verification theorem: a malformed token in the
cookie. -/
theorem refresh_verify_failure_is_401_no_state_change_witness :
    ∃ m, refresh exDBR (some (.garbage "not-a-jwt")) none 1000 =
      (.err 401 m, exDBR) :=
  refresh_verify_failure_is_401_no_state_change exDBR
    (some (.garbage "not-a-jwt")) none (.garbage "not-a-jwt") 1000 .invalid
    rfl rfl

/-- C7: a successful `/auth/refresh` call mutates the refresh-token table
only by setting `lastUsedAt` on records matching the presented token's
hash (tokenHash, userId, expiresAt and revoked are untouched), inserts no
new RefreshRecord (the table length is unchanged), leaves every other
table unchanged, and returns only a freshly signed access-token JWT —
never a new refresh token, which is not rotated. -/
theorem refresh_success_updates_only_lastUsedAt (db : DB)
    (cookieTok bodyTok : Option Token) (now : Nat) (tok : Token) (db' : DB)
    (h : refresh db cookieTok bodyTok now = (.ok tok, db')) :
    db'.users = db.users ∧
    db'.authCodes = db.authCodes ∧
    db'.clientApps = db.clientApps ∧
    db'.refreshTokens.length = db.refreshTokens.length ∧
    (∃ hsh, db'.refreshTokens = db.refreshTokens.map (fun r =>
      if r.tokenHash == hsh then { r with lastUsedAt := some now } else r)) ∧
    (∃ claims iss aud secret iat exp,
      tok = Token.accessJwt claims iss aud secret iat exp) := by
  unfold refresh at h
  split at h
  next => simp at h
  next tok' heq =>
    split at h
    next e hver => cases e <;> simp [renderRefreshVerifyError] at h
    next decoded hver =>
      repeat' split at h <;> try simp at h
      obtain ⟨htok, hdb⟩ := h
      subst hdb
      subst htok
      refine ⟨rfl, rfl, rfl, by simp, ⟨hashToken tok', by simp [beq_iff_eq]⟩, ?_⟩
      exact ⟨_, _, _, _, _, _, rfl⟩

/-- Witness for the refresh frame theorem: the fixture refresh store at
time 1000. -/
theorem refresh_success_updates_only_lastUsedAt_witness :
    exDBRafter.users = exDBR.users ∧
    exDBRafter.authCodes = exDBR.authCodes ∧
    exDBRafter.clientApps = exDBR.clientApps ∧
    exDBRafter.refreshTokens.length = exDBR.refreshTokens.length ∧
    (∃ hsh, exDBRafter.refreshTokens = exDBR.refreshTokens.map (fun r =>
      if r.tokenHash == hsh then { r with lastUsedAt := some 1000 } else r)) ∧
    (∃ claims iss aud secret iat exp,
      generateAccessToken ⟨"user-1", "alice@x.test", true⟩ 1000 =
        Token.accessJwt claims iss aud secret iat exp) :=
  refresh_success_updates_only_lastUsedAt exDBR (some exRefreshTok) none 1000
    (generateAccessToken ⟨"user-1", "alice@x.test", true⟩ 1000) exDBRafter
    (by decide)

/-- C8: login failure on an unknown identifier and login failure on a
password mismatch are externally indistinguishable: both runs return the
same 401 status with the same "Invalid credentials" message (and no state
change), so the two responses are equal. -/
theorem login_failures_indistinguishable (db₁ db₂ : DB)
    (req₁ req₂ : LoginRequest) (now₁ now₂ : Nat) (tid₁ tid₂ : String)
    (u : UserRec)
    (hp₁ : (falsy req₁.identifier || falsy req₁.password) = false)
    (hp₂ : (falsy req₂.identifier || falsy req₂.password) = false)
    (hnoUser : findUserByIdentifier db₁ (req₁.identifier.getD "") = none)
    (hfound : findUserByIdentifier db₂ (req₂.identifier.getD "") = some u)
    (hbadPw : comparePassword (req₂.password.getD "") u.password = false) :
    login db₁ req₁ now₁ tid₁ = (.err 401 "Invalid credentials", db₁) ∧
    login db₂ req₂ now₂ tid₂ = (.err 401 "Invalid credentials", db₂) ∧
    (login db₁ req₁ now₁ tid₁).1 = (login db₂ req₂ now₂ tid₂).1 := by
  have h₁ : login db₁ req₁ now₁ tid₁ = (.err 401 "Invalid credentials", db₁) := by
    simp [login, hp₁, hnoUser]
  have h₂ : login db₂ req₂ now₂ tid₂ = (.err 401 "Invalid credentials", db₂) := by
    simp [login, hp₂, hfound, hbadPw]
  exact ⟨h₁, h₂, by rw [h₁, h₂]⟩

/-- Witness for the indistinguishability theorem: an unknown email versus
the fixture user with a wrong password, against the same fixture store. -/
theorem login_failures_indistinguishable_witness :
    login exDB ⟨some "bob@x.test", some "pw123", none, none, none⟩ 1000 "t1" =
      (.err 401 "Invalid credentials", exDB) ∧
    login exDB ⟨some "alice@x.test", some "wrong", none, none, none⟩ 1000 "t2" =
      (.err 401 "Invalid credentials", exDB) ∧
    (login exDB ⟨some "bob@x.test", some "pw123", none, none, none⟩ 1000 "t1").1 =
      (login exDB ⟨some "alice@x.test", some "wrong", none, none, none⟩ 1000 "t2").1 :=
  login_failures_indistinguishable exDB exDB
    ⟨some "bob@x.test", some "pw123", none, none, none⟩
    ⟨some "alice@x.test", some "wrong", none, none, none⟩
    1000 1000 "t1" "t2" exUser
    (by decide) (by decide) (by decide) (by decide) (by decide)

/-- C9 counterexample: with `alice@x.test` already registered, a register
call for `Alice@x.test` — the same email up to letter case — does NOT fail
with EmailTaken: the email lookup is an exact byte comparison, so the call
succeeds and creates a second, distinct user. -/
theorem register_case_variant_email_not_taken :
    (register exDB ⟨some "Alice@x.test", none, some "pw999", none⟩ "user-2").1 =
      .created "user-2" "Alice@x.test" none none false := by
  decide

/-- C9 amended: email equality is exact (byte-for-byte, case-sensitive)
throughout: a register call whose email is byte-equal to an existing
user's fails with EmailTaken, while a variant differing in letter case is
treated as a different email (see the counterexample), and the login
lookup likewise resolves only a byte-equal email. -/
theorem register_exact_email_conflict (db : DB) (req : RegisterRequest)
    (newId e : String)
    (he : req.email = some e) (hne : e ≠ "")
    (hp : falsy req.password = false)
    (hex : (db.users.filter (fun u => some u.email == req.email)).length > 0) :
    register db req newId = (.err 409 "User with this email already exists", db) := by
  have hfal : falsy req.email = false := by simp [falsy, he, hne]
  simp [register, hfal, hp, hex]

/-- Witness for the exact-email-conflict theorem: re-registering the
byte-identical `alice@x.test` fails with 409. -/
theorem register_exact_email_conflict_witness :
    register exDB ⟨some "alice@x.test", none, some "pw999", none⟩ "user-2" =
      (.err 409 "User with this email already exists", exDB) :=
  register_exact_email_conflict exDB
    ⟨some "alice@x.test", none, some "pw999", none⟩ "user-2" "alice@x.test"
    rfl (by decide) (by decide) (by decide)

/-- C10: `/authorize` with a validated client and redirect URI and a
verifying `sso_session` cookie inserts an AuthCode for the `userId` found
in the token and redirects with the code WITHOUT checking that this user
still exists: even when no user with that id is in the store, the code is
issued, and the missing user is only detected later, when `/token`
exchanges that code and fails with the InvalidGrant "user gone" error
("User not found" / "Associated user no longer exists"). -/
theorem authorize_issues_code_for_deleted_user (db : DB)
    (req : AuthorizeRequest) (tok : Token) (now now2 : Nat)
    (freshCode tokenId : String) (client : ClientRec) (decoded : AccessClaims)
    (req2 : TokenRequest) (cid ru : String)
    (hcid : req.client_id = some cid)
    (hru : req.redirect_uri = some ru)
    (hval : authorizeRequestInvalid req = false)
    (hclient : findClient db req.client_id = some client)
    (hallow : client.allowedRedirectUris.contains ru = true)
    (hver : verifyAccessToken tok now = .ok decoded)
    (huser : findUserById db decoded.userId = none)
    (hfresh : findAuthCode db (some freshCode) (some cid) = none)
    (hreq2 : tokenRequestInvalid req2 = false)
    (hc2 : req2.code = some freshCode)
    (hcl2 : req2.client_id = some cid)
    (hsec2 : comparePassword (req2.client_secret.getD "") client.clientSecret = true)
    (hrd2 : req2.redirect_uri = some ru)
    (hnow2 : ¬ getAuthCodeExpiry now < now2) :
    authorize db req (some tok) false now freshCode =
      (.redirectCode ru freshCode req.state,
       { db with authCodes := db.authCodes ++
           [⟨freshCode, decoded.userId, cid, ru, getAuthCodeExpiry now, false⟩] }) ∧
    token { db with authCodes := db.authCodes ++
           [⟨freshCode, decoded.userId, cid, ru, getAuthCodeExpiry now, false⟩] }
        req2 now2 tokenId =
      (.err 400 "User not found" "Associated user no longer exists",
       { db with authCodes := db.authCodes ++
           [⟨freshCode, decoded.userId, cid, ru, getAuthCodeExpiry now, false⟩] }) := by
  have hmem : ru ∈ client.allowedRedirectUris := by simpa using hallow
  have hclient' : findClient db (some cid) = some client := by
    rw [← hcid]; exact hclient
  constructor
  · simp [authorize, hval, hclient', hver, hcid, hru, hmem]
  · have hcA : findClient
        { db with authCodes := db.authCodes ++
            [⟨freshCode, decoded.userId, cid, ru, getAuthCodeExpiry now, false⟩] }
        req2.client_id = some client := by
      rw [hcl2, ← hcid]; exact hclient
    have hacA : findAuthCode
        { db with authCodes := db.authCodes ++
            [⟨freshCode, decoded.userId, cid, ru, getAuthCodeExpiry now, false⟩] }
        req2.code req2.client_id =
        some ⟨freshCode, decoded.userId, cid, ru, getAuthCodeExpiry now, false⟩ := by
      rw [hc2, hcl2]
      show (db.authCodes ++
          [(⟨freshCode, decoded.userId, cid, ru, getAuthCodeExpiry now, false⟩ :
            AuthCodeRec)]).find?
          (fun a => some a.code == some freshCode && some a.clientId == some cid)
        = some (⟨freshCode, decoded.userId, cid, ru, getAuthCodeExpiry now, false⟩ :
            AuthCodeRec)
      rw [List.find?_append]
      rw [show db.authCodes.find?
          (fun a => some a.code == some freshCode && some a.clientId == some cid)
          = none from hfresh]
      simp
    have huA : findUserById
        { db with authCodes := db.authCodes ++
            [⟨freshCode, decoded.userId, cid, ru, getAuthCodeExpiry now, false⟩] }
        decoded.userId = none := huser
    simp [token, hreq2, hcA, hsec2, hacA, hnow2, hrd2, huA]

/-- Witness for the deleted-user theorem: a store with no users at all, a
session token naming the vanished user `ghost`, and the follow-up `/token`
call on the issued code. -/
theorem authorize_issues_code_for_deleted_user_witness :
    authorize exDBGhost
      ⟨some "appA", some "https://a.test/cb", some "code", some "st"⟩
      (some (generateAccessToken ⟨"ghost", "g@x.test", true⟩ 900)) false 1000 "fc1" =
      (.redirectCode "https://a.test/cb" "fc1" (some "st"), exDBGhostAfter) ∧
    token exDBGhostAfter
        ⟨some "fc1", some "appA", some "s", some "https://a.test/cb",
         some "authorization_code"⟩ 1200 "tid-9" =
      (.err 400 "User not found" "Associated user no longer exists",
       exDBGhostAfter) :=
  authorize_issues_code_for_deleted_user exDBGhost
    ⟨some "appA", some "https://a.test/cb", some "code", some "st"⟩
    (generateAccessToken ⟨"ghost", "g@x.test", true⟩ 900) 1000 1200 "fc1" "tid-9"
    exClient ⟨"ghost", "g@x.test", true⟩
    ⟨some "fc1", some "appA", some "s", some "https://a.test/cb",
     some "authorization_code"⟩ "appA" "https://a.test/cb"
    rfl rfl (by decide) (by decide) (by decide) rfl rfl (by decide)
    (by decide) rfl rfl (by decide) rfl (by decide)

end SSO
